import Mathlib

/-!
Verification development for the Remsh remote-shell repository
(src/src/server.cpp, src/src/client.cpp, src/include/vprint.h).

The C++ sources are shallowly embedded below.  Bytes are modelled as
natural numbers (the sentinel byte is 0), the asynchronous parts
(signal delivery, poll results, socket reads) are driven by explicit
event traces, and each C function of interest becomes a Lean function
over those traces.  Line references in comments point into the C++
sources.
-/

namespace Remsh

/-- A byte on the wire; the framing sentinel is the value 0. -/
abbrev Byte := Nat

/-- Bytes of a C string literal (no NUL terminator included). -/
def strBytes (s : String) : List Byte := s.data.map Char.toNat

/-- Reading a char buffer as a C string stops at the first NUL byte.
This models `cout << buffer` in client.cpp:171, `popen(buffer, ...)` in
server.cpp:308 and `result.append(buffer)` in server.cpp:318. -/
def cstr (bs : List Byte) : List Byte := bs.takeWhile (fun b => b != 0)

/-- include/vprint.h lines 6-15: `verboseprint` prints its format string
only when the global verbose flag is set; it has no other effect.  We
model its output as the list of emitted format strings. -/
def verboseprint (verboseOutput : Bool) (format : String) : List String :=
  if verboseOutput = false then [] else [format]

/-! ## Client (src/src/client.cpp)

The response-receive loop (client.cpp:157-176) is driven by the sequence
of results of the blocking `read` calls. -/

/-- One result of `read(sessFD, buffer, BUFFERSIZE)` in client.cpp:159. -/
inductive ReadEvent
  /-- `read` returned `bs.length > 0` bytes, namely `bs`. -/
  | chunk (bs : List Byte)
  /-- `read` returned 0 (peer closed / EOF), client.cpp:164. -/
  | closed
  /-- `read` returned a negative value, client.cpp:160. -/
  | failed
deriving DecidableEq, Repr

/-- How the client's receive loop ended. -/
inductive RecvOutcome
  /-- last chunk ended in the sentinel byte (client.cpp:175). -/
  | complete
  /-- zero-byte read, peer closed (client.cpp:164-167). -/
  | closed
  /-- negative read; the client returns EXIT_FAILURE (client.cpp:160-163). -/
  | failed
deriving DecidableEq, Repr

/-- Result of the client's response-receive loop. -/
structure RecvRun where
  /-- bytes echoed to standard output by `cout << buffer << '\n'` per chunk. -/
  printed : List Byte
  /-- the accumulated `bytesread` counter (client.cpp:169). -/
  bytesread : Nat
  outcome : RecvOutcome
deriving DecidableEq, Repr

/-- client.cpp:171: each received chunk is echoed as its C-string content
followed by one newline (`cout << buffer << '\n'`). -/
def clientEcho (bs : List Byte) : List Byte := cstr bs ++ [10]

/-- The client's inner receive loop, client.cpp:157-176: read a chunk;
negative read is fatal; zero-byte read ends the message; otherwise count
the bytes, echo the chunk plus a newline, and stop when the chunk's last
byte is the sentinel. -/
def clientRecvLoop : List ReadEvent → RecvRun
  | [] => ⟨[], 0, RecvOutcome.closed⟩
  | ReadEvent.failed :: _ => ⟨[], 0, RecvOutcome.failed⟩
  | ReadEvent.closed :: _ => ⟨[], 0, RecvOutcome.closed⟩
  | ReadEvent.chunk bs :: rest =>
    if bs.getLast? = some 0 then
      ⟨clientEcho bs, bs.length, RecvOutcome.complete⟩
    else
      let r := clientRecvLoop rest
      ⟨clientEcho bs ++ r.printed, bs.length + r.bytesread, r.outcome⟩

/-- Observable result of a client session (client.cpp main loop). -/
structure ClientRun where
  /-- all bytes written to the socket. -/
  sent : List Byte
  /-- all response bytes echoed to standard output. -/
  printed : List Byte
  exitCode : Nat
deriving DecidableEq, Repr

/-- The literal command that ends the client loop (client.cpp:147). -/
def exitBytes : List Byte := strBytes "exit"

/-- The non-interactive path through the client main loop
(client.cpp:137-179 with `noninteractive = true`): unless the command is
the literal `exit`, send the command plus a trailing NUL
(client.cpp:152, `command.size()+1` bytes), run the receive loop once,
and exit 0 on success or 1 on a failed read. -/
def runNoninteractive (command : List Byte) (evs : List ReadEvent) : ClientRun :=
  if command = exitBytes then ⟨[], [], 0⟩
  else
    let r := clientRecvLoop evs
    ⟨command ++ [0], r.printed, if r.outcome = RecvOutcome.failed then 1 else 0⟩

/-- The interactive path through the client main loop (client.cpp:137-179
with `noninteractive = false`): each iteration is driven by the line read
by `getline` and that iteration's read results.  The literal line `exit`
breaks the loop before any write (client.cpp:147-149); a failed read
returns EXIT_FAILURE (client.cpp:162); otherwise the loop repeats. -/
def runInteractive : List (List Byte × List ReadEvent) → ClientRun
  | [] => ⟨[], [], 0⟩
  | (line, evs) :: rest =>
    if line = exitBytes then ⟨[], [], 0⟩
    else
      let r := clientRecvLoop evs
      if r.outcome = RecvOutcome.failed then ⟨line ++ [0], r.printed, 1⟩
      else
        let k := runInteractive rest
        ⟨line ++ [0] ++ k.sent, r.printed ++ k.printed, k.exitCode⟩

/-! ## Server admission loop (src/src/server.cpp main, lines 164-228)

The loop state consists of the globals of server.cpp:37-39; the loop is
driven by the outcomes of the `ppoll` wait (server.cpp:165). -/

/-- The globals of server.cpp:37-39 together with whether the main
`for(;;)` loop is still running. -/
structure ServerState where
  /-- `actvConns`, server.cpp:37. -/
  actvConns : Int
  /-- `stillHandlingRequests`, server.cpp:39 (the spec's ShutdownIntent
  is this flag being `false`). -/
  stillHandlingRequests : Bool
  /-- whether the main loop has not yet executed `break`. -/
  running : Bool
deriving DecidableEq, Repr

/-- State at loop entry: no connections, still handling requests. -/
def initServerState : ServerState := ⟨0, true, true⟩

/-- server.cpp:256-261: the SIGCHLD handler decrements `actvConns` and
clears `stillHandlingRequests` exactly when the decremented value is 0. -/
def sigchld_handler (s : ServerState) : ServerState :=
  let a := s.actvConns - 1
  { s with actvConns := a
           stillHandlingRequests := if a = 0 then false else s.stillHandlingRequests }

/-- Outcome of one `ppoll` wait in the admission loop (server.cpp:165). -/
inductive LoopEvent
  /-- a SIGCHLD was delivered during the wait: the handler ran and
  `ppoll` returned -1 with `errno == EINTR`. -/
  | interrupted
  /-- `ppoll` failed for another reason (server.cpp:170). -/
  | pollError
  /-- the listening socket is readable and `accept` and `fork`
  succeeded; a worker now owns the new session (server.cpp:174-209). -/
  | readyConn
  /-- `accept` failed (server.cpp:177-180). -/
  | acceptFail
  /-- `ppoll` returned 0: nothing happened before the timeout
  (server.cpp:211-218). -/
  | timeout
deriving DecidableEq, Repr

/-- One iteration of the admission loop (server.cpp:164-219),
parameterized by the verbose flag; returns the new state and the
status messages printed to standard output.

Faithful to the source: on `interrupted` the handler has already run
inside the wait, and line 169 (`if (errno == EINTR) break;`) leaves the
loop unconditionally.  On `readyConn` the increment `++actvConns` is the
argument of `verboseprint` (server.cpp:208) and is evaluated whether or
not the flag is set. -/
def loopStepV (v : Bool) (s : ServerState) (e : LoopEvent) : ServerState × List String :=
  match e with
  | LoopEvent.interrupted => ({ sigchld_handler s with running := false }, [])
  | LoopEvent.pollError => ({ s with running := false }, [])
  | LoopEvent.readyConn =>
    ({ s with actvConns := s.actvConns + 1 },
     verboseprint v "Received connection from %s:%s.\n" ++
       verboseprint v "Active connections: %d\n")
  | LoopEvent.acceptFail => ({ s with running := false }, [])
  | LoopEvent.timeout =>
    if s.stillHandlingRequests = false then ({ s with running := false }, [])
    else (s, [])

/-- The admission-loop state transition without the log component. -/
def loopStep (s : ServerState) (e : LoopEvent) : ServerState :=
  (loopStepV false s e).1

/-- Run the admission loop from a given state over a trace of wait
outcomes; once the loop has exited, later events are ignored (after the
`break` the process reaps children and exits, and SIGCHLD stays blocked,
server.cpp:221-228). -/
def serverRunFromV (v : Bool) (p : ServerState × List String) :
    List LoopEvent → ServerState × List String
  | [] => p
  | e :: rest =>
    if p.1.running then
      serverRunFromV v ((loopStepV v p.1 e).1, p.2 ++ (loopStepV v p.1 e).2) rest
    else serverRunFromV v p rest

/-- Run the admission loop from its initial state, with logs. -/
def serverRunV (v : Bool) (evs : List LoopEvent) : ServerState × List String :=
  serverRunFromV v (initServerState, []) evs

/-- Run the admission loop from its initial state (state only). -/
def serverRun (evs : List LoopEvent) : ServerState :=
  (serverRunV false evs).1

/-! ## Connection worker (src/src/server.cpp handle_request, lines 276-343)

The worker loop is driven by the outcomes of the `ppoll`/`recv` calls on
the session socket and of the `popen` collaborator. -/

/-- Outcome of executing a received request (server.cpp:307-319). -/
inductive ExecOutcome
  /-- `popen` returned null (server.cpp:310-313). -/
  | popenFail
  /-- the subprocess started; `fgetsChunks` are the successive buffers
  produced by the `fgets` loop (server.cpp:316-319), and `sendOk` is
  whether the following `send` returned non-negatively (server.cpp:321). -/
  | output (fgetsChunks : List (List Byte)) (sendOk : Bool)
deriving DecidableEq, Repr

/-- Outcome of one `ppoll` wait on the session socket (server.cpp:289),
following the branch order of server.cpp:291-333: poll error first, then
POLLIN, then POLLHUP, else timeout. -/
inductive SessEvent
  /-- `ppoll` returned -1 with `errno != EINTR` (server.cpp:291-295). -/
  | pollErr
  /-- POLLIN and `recv` returned <= 0 (server.cpp:299-302). -/
  | recvClosed
  /-- POLLIN and `recv` returned the bytes `received` (nonempty),
  followed by executing them as a command (server.cpp:304-325). -/
  | request (received : List Byte) (exec : ExecOutcome)
  /-- POLLHUP without POLLIN (server.cpp:327-330). -/
  | hup
  /-- `ppoll` returned 0 before the timeout (server.cpp:331-333). -/
  | timeout
deriving DecidableEq, Repr

/-- An externally observable action of the worker process. -/
inductive Action
  /-- the command text handed to `popen` (server.cpp:308). -/
  | execCmd (cmd : List Byte)
  /-- bytes passed to `send` on the session socket (server.cpp:321). -/
  | sendBytes (bs : List Byte)
  /-- `delete [] host` (server.cpp:338). -/
  | freeHost
  /-- `delete [] service` (server.cpp:339). -/
  | freeService
  /-- `shutdown(sessFD, SHUT_RDWR)` (server.cpp:340). -/
  | shutdownSock
  /-- `close(sessFD)` (server.cpp:341). -/
  | closeSock
  /-- `kill(serverpid, SIGCHLD)` (server.cpp:342). -/
  | notifyParent
deriving DecidableEq, Repr

/-- Result of running the worker. -/
structure WorkerRun where
  acts : List Action
  logs : List String
  /-- whether a `perror` error branch was taken (server.cpp:293, 311, 323). -/
  errPath : Bool
  /-- whether the loop executed `break` (rather than the trace ending). -/
  exited : Bool
deriving DecidableEq, Repr

/-- server.cpp:307-321: the captured output is what the `fgets` loop
appends to `result` — each buffer read as a C string — and the response
passed to `send` is `result` followed by exactly one NUL byte
(`result.size()+1` bytes of `result.c_str()`). -/
def capturedOutput (fgetsChunks : List (List Byte)) : List Byte :=
  (fgetsChunks.map cstr).flatten

/-- The byte sequence the worker passes to `send` for a request whose
captured output came from `fgetsChunks` (server.cpp:321). -/
def workerResponse (fgetsChunks : List (List Byte)) : List Byte :=
  capturedOutput fgetsChunks ++ [0]

/-- The worker's request loop (server.cpp:288-334), parameterized by the
verbose flag.  A request's command is the received buffer read as a C
string (`buffer[bytesRead] = '\0'` then `popen(buffer, ...)`,
server.cpp:304-308). -/
def workerLoopV (v : Bool) : List SessEvent → WorkerRun
  | [] => ⟨[], [], false, false⟩
  | SessEvent.pollErr :: _ => ⟨[], [], true, true⟩
  | SessEvent.recvClosed :: _ => ⟨[], [], false, true⟩
  | SessEvent.request received exec :: rest =>
    let rlog := verboseprint v "Read from client was: %s\n"
    match exec with
    | ExecOutcome.popenFail => ⟨[Action.execCmd (cstr received)], rlog, true, true⟩
    | ExecOutcome.output fchunks ok =>
      if ok then
        let k := workerLoopV v rest
        ⟨Action.execCmd (cstr received) :: Action.sendBytes (workerResponse fchunks) :: k.acts,
         rlog ++ k.logs, k.errPath, k.exited⟩
      else
        ⟨[Action.execCmd (cstr received), Action.sendBytes (workerResponse fchunks)],
         rlog, true, true⟩
  | SessEvent.hup :: _ => ⟨[], [], false, true⟩
  | SessEvent.timeout :: rest => workerLoopV v rest

/-- The teardown actions of server.cpp:337-342, in source order. -/
def teardownActions : List Action :=
  [Action.freeHost, Action.freeService, Action.shutdownSock,
   Action.closeSock, Action.notifyParent]

/-- handle_request (server.cpp:276-343): run the request loop, then
unconditionally free the diagnostic strings, shut down and close the
session socket, and signal the parent. -/
def handle_request (v : Bool) (evs : List SessEvent) : WorkerRun :=
  let r := workerLoopV v evs
  { acts := r.acts ++ teardownActions
    logs := r.logs ++ verboseprint v "Terminating connection from %s:%s\n"
    errPath := r.errPath
    exited := r.exited }

/-! ## Server option parsing (src/src/server.cpp lines 78-108) -/

/-- whether a character is a decimal digit. -/
def isDigit10 (c : Char) : Bool := 48 ≤ c.toNat && c.toNat ≤ 57

/-- whether a character is whitespace for `strtoul` (C `isspace`):
space (32), tab (9), newline (10), vertical tab (11), form feed (12),
carriage return (13). -/
def cIsSpace (c : Char) : Bool :=
  c.toNat == 32 || c.toNat == 9 || c.toNat == 10 || c.toNat == 11 ||
    c.toNat == 12 || c.toNat == 13

/-- numeric value of a decimal digit list, most significant first. -/
def decValue (cs : List Char) : Nat :=
  cs.foldl (fun a c => a * 10 + (c.toNat - 48)) 0

/-- Conversion step of `strtoul` after whitespace skipping: accept one
optional sign, convert the longest leading run of decimal digits (an
empty run converts to 0 with no error), clamp to ULONG_MAX with ERANGE
on overflow, and negate modulo 2^64 under a minus sign. -/
def strtoul10core : List Char → Nat × Bool
  | [] => (0, false)
  | c :: rest =>
    let neg := c.toNat == 45
    let cs2 := if c.toNat == 43 || c.toNat == 45 then rest else c :: rest
    let ds := cs2.takeWhile isDigit10
    if ds.isEmpty then (0, false)
    else
      let v := decValue ds
      if v > 2 ^ 64 - 1 then (2 ^ 64 - 1, true)
      else (if neg then (2 ^ 64 - v % 2 ^ 64) % 2 ^ 64 else v, false)

/-- `strtoul(s, NULL, 10)` as called in server.cpp:83: skip leading
whitespace, then convert.  Returns the value and whether ERANGE was set
(errno is 0 at the call site). -/
def strtoul10 (s : String) : Nat × Bool :=
  strtoul10core (s.data.dropWhile cIsSpace)

/-- The `-p` option check of server.cpp:82-92: reject (exit non-zero)
exactly when `strtoul` reported ERANGE or a value above 0xffff;
otherwise the raw option string becomes the port passed on to
`getaddrinfo`/`bind`. -/
def serverPortOption (optarg : String) : Option String :=
  let r := strtoul10 optarg
  if r.2 = true ∨ r.1 > 0xffff then none else some optarg

/-! ## Helper lemmas -/

/-- The sentinel byte never occurs in the captured output: the `fgets`
loop appends each buffer as a C string, which stops at the first NUL. -/
theorem zero_not_mem_capturedOutput (fchunks : List (List Byte)) :
    (0 : Byte) ∉ capturedOutput fchunks := by
  intro h
  rw [capturedOutput, List.mem_flatten] at h
  obtain ⟨l, hl, h0⟩ := h
  rw [List.mem_map] at hl
  obtain ⟨bs, _, rfl⟩ := hl
  have := List.mem_takeWhile_imp h0
  simp at this

/-- Every action emitted inside the worker's request loop is a command
execution or a socket send; the teardown actions appear only after the
loop (server.cpp:288-334 versus 337-342). -/
theorem workerLoop_acts_shape (v : Bool) (evs : List SessEvent) :
    ∀ a ∈ (workerLoopV v evs).acts,
      (∃ bs, a = Action.execCmd bs) ∨ (∃ bs, a = Action.sendBytes bs) := by
  induction evs with
  | nil => simp [workerLoopV]
  | cons e rest ih =>
    cases e with
    | pollErr => simp [workerLoopV]
    | recvClosed => simp [workerLoopV]
    | hup => simp [workerLoopV]
    | timeout => simpa [workerLoopV] using ih
    | request received exec =>
      cases exec with
      | popenFail =>
        intro a ha
        simp [workerLoopV] at ha
        exact Or.inl ⟨cstr received, ha⟩
      | output fchunks ok =>
        cases ok with
        | false =>
          intro a ha
          simp [workerLoopV] at ha
          rcases ha with h | h
          · exact Or.inl ⟨cstr received, h⟩
          · exact Or.inr ⟨workerResponse fchunks, h⟩
        | true =>
          intro a ha
          simp [workerLoopV] at ha
          rcases ha with h | h | h
          · exact Or.inl ⟨cstr received, h⟩
          · exact Or.inr ⟨workerResponse fchunks, h⟩
          · exact ih a h

/-- No teardown action is emitted by the request loop itself. -/
theorem workerLoop_count_zero (v : Bool) (evs : List SessEvent) (x : Action)
    (hx : ∀ bs, x ≠ Action.execCmd bs ∧ x ≠ Action.sendBytes bs) :
    (workerLoopV v evs).acts.count x = 0 := by
  rw [List.count_eq_zero]
  intro hmem
  rcases workerLoop_acts_shape v evs x hmem with ⟨bs, h⟩ | ⟨bs, h⟩
  · exact (hx bs).1 h
  · exact (hx bs).2 h

/-- The admission-loop state transition does not depend on the verbose
flag: the increment in server.cpp:208 is the argument of `verboseprint`
and is evaluated before the flag is consulted. -/
theorem loopStepV_state_verbose_indep (v₁ v₂ : Bool) (s : ServerState) (e : LoopEvent) :
    (loopStepV v₁ s e).1 = (loopStepV v₂ s e).1 := by
  cases e <;> rfl

/-- The admission-loop run reaches the same state for any verbose flag
and any log accumulator. -/
theorem serverRunFromV_state_verbose_indep (v₁ v₂ : Bool) :
    ∀ (evs : List LoopEvent) (s : ServerState) (l₁ l₂ : List String),
      (serverRunFromV v₁ (s, l₁) evs).1 = (serverRunFromV v₂ (s, l₂) evs).1 := by
  intro evs
  induction evs with
  | nil => intro s l₁ l₂; rfl
  | cons e rest ih =>
    intro s l₁ l₂
    simp only [serverRunFromV]
    by_cases h : s.running
    · simp only [h, if_true]
      rw [loopStepV_state_verbose_indep v₁ v₂ s e]
      exact ih _ _ _
    · simp only [h, if_false]
      exact ih _ _ _

/-- The worker's actions, error path and exit flag do not depend on the
verbose flag; only the log component does. -/
theorem workerLoopV_verbose_indep (v₁ v₂ : Bool) (evs : List SessEvent) :
    (workerLoopV v₁ evs).acts = (workerLoopV v₂ evs).acts ∧
    (workerLoopV v₁ evs).errPath = (workerLoopV v₂ evs).errPath ∧
    (workerLoopV v₁ evs).exited = (workerLoopV v₂ evs).exited := by
  induction evs with
  | nil => exact ⟨rfl, rfl, rfl⟩
  | cons e rest ih =>
    cases e with
    | pollErr => exact ⟨rfl, rfl, rfl⟩
    | recvClosed => exact ⟨rfl, rfl, rfl⟩
    | hup => exact ⟨rfl, rfl, rfl⟩
    | timeout => simpa [workerLoopV] using ih
    | request received exec =>
      cases exec with
      | popenFail => exact ⟨rfl, rfl, rfl⟩
      | output fchunks ok =>
        cases ok with
        | false => exact ⟨rfl, rfl, rfl⟩
        | true =>
          obtain ⟨h1, h2, h3⟩ := ih
          simp only [workerLoopV, h1, h2, h3]
          exact ⟨rfl, rfl, rfl⟩

/-- A list followed by one extra element ends in that element. -/
theorem getLast?_append_single (l : List Byte) (a : Byte) :
    (l ++ [a]).getLast? = some a :=
  List.getLast?_concat l

/-! ## Claims -/

/-- C1 (code_bug evidence): two workers are spawned, then the first
terminates; its SIGCHLD interrupts the wait, the handler decrements the
counter to 1, and line 169's unconditional `break` exits the admission
loop.  SIGCHLD stays blocked from then on, so the second worker's
notification (the final `interrupted` event) is never handled: after all
spawned workers have terminated the counter is still 1 — it does not
return to zero, and the loop exited while it was positive. -/
theorem c1_counter_never_returns_to_zero :
    serverRun [LoopEvent.readyConn, LoopEvent.readyConn,
               LoopEvent.interrupted, LoopEvent.interrupted] =
      { actvConns := 1, stillHandlingRequests := true, running := false } ∧
    (serverRun [LoopEvent.readyConn, LoopEvent.readyConn,
                LoopEvent.interrupted, LoopEvent.interrupted]).actvConns ≠ 0 := by
  decide

/-- C2 (code_bug evidence): with two active connections the wait is
interrupted by a termination notification; the handler leaves
`stillHandlingRequests` true (ShutdownIntent is not set), yet the loop
exits anyway — server.cpp:169 breaks on `errno == EINTR` without
re-evaluating the flag. -/
theorem c2_loop_exits_with_shutdown_intent_unset :
    (loopStep ⟨2, true, true⟩ LoopEvent.interrupted).stillHandlingRequests = true ∧
    (loopStep ⟨2, true, true⟩ LoopEvent.interrupted).running = false := by
  decide

/-- C3 (counterexample): in the `-c "echo 42"` scenario the worker sends
the bytes `42\n` plus the sentinel; the client echoes the chunk's
C-string content and then one further newline (client.cpp:171), so it
prints `42\n\n` — not exactly the bytes `42` followed by one trailing
newline as claimed. -/
theorem c3_client_prints_extra_newline :
    (runNoninteractive (strBytes "echo 42")
        [ReadEvent.chunk (strBytes "42\n" ++ [0])]).printed = strBytes "42\n\n" ∧
    strBytes "42\n\n" ≠ strBytes "42\n" := by
  decide

/-- C3 (amended): with `-c "echo 42"` the client sends `echo 42` plus a
trailing NUL and exits with status 0; the worker executes `echo 42` and
sends its output `42\n` followed by the sentinel; the client prints `42`
followed by the output's newline plus one extra newline appended by the
per-chunk echo; and the single-connection server's active count returns
to 0, ShutdownIntent is set, and the admission loop exits. -/
theorem c3_echo42_scenario :
    runNoninteractive (strBytes "echo 42")
        [ReadEvent.chunk (strBytes "42\n" ++ [0])] =
      { sent := strBytes "echo 42" ++ [0]
        printed := strBytes "42\n\n"
        exitCode := 0 } ∧
    (workerLoopV true
        [SessEvent.request (strBytes "echo 42" ++ [0])
           (ExecOutcome.output [strBytes "42\n"] true),
         SessEvent.recvClosed]).acts =
      [Action.execCmd (strBytes "echo 42"),
       Action.sendBytes (strBytes "42\n" ++ [0])] ∧
    serverRun [LoopEvent.readyConn, LoopEvent.interrupted] =
      { actvConns := 0, stillHandlingRequests := false, running := false } := by
  decide

/-- C6: if the peer half-closes without sending a request — the worker
observes only timeouts and then either a zero-byte `recv` under POLLIN
or a bare POLLHUP — the request loop exits via a `break` that takes no
`perror` branch and emits no send; the whole of `handle_request` then
performs only the teardown actions, so nothing is sent to the peer. -/
theorem c6_half_close_clean_exit (v : Bool) (n : Nat) :
    workerLoopV v (List.replicate n SessEvent.timeout ++ [SessEvent.recvClosed]) =
      ⟨[], [], false, true⟩ ∧
    workerLoopV v (List.replicate n SessEvent.timeout ++ [SessEvent.hup]) =
      ⟨[], [], false, true⟩ ∧
    (handle_request v
        (List.replicate n SessEvent.timeout ++ [SessEvent.recvClosed])).acts =
      teardownActions := by
  induction n with
  | zero => exact ⟨rfl, rfl, rfl⟩
  | succ m ih =>
    obtain ⟨h1, h2, h3⟩ := ih
    refine ⟨?_, ?_, ?_⟩
    · simpa [List.replicate_succ, workerLoopV] using h1
    · simpa [List.replicate_succ, workerLoopV] using h2
    · simpa [List.replicate_succ, workerLoopV, handle_request] using h3

/-- C7: on every exit of the request loop — whatever the trace of poll,
receive, execution and send outcomes — `handle_request` emits each of
the teardown actions exactly once: it frees the host and service
strings, shuts the session socket down bidirectionally, closes it
exactly once, and signals the parent exactly once; the teardown is the
final suffix of the action sequence, after loop actions that are only
command executions and sends. -/
theorem c7_teardown_exactly_once (v : Bool) (evs : List SessEvent) :
    (handle_request v evs).acts.count Action.freeHost = 1 ∧
    (handle_request v evs).acts.count Action.freeService = 1 ∧
    (handle_request v evs).acts.count Action.shutdownSock = 1 ∧
    (handle_request v evs).acts.count Action.closeSock = 1 ∧
    (handle_request v evs).acts.count Action.notifyParent = 1 ∧
    ∃ pre, (handle_request v evs).acts = pre ++ teardownActions ∧
      ∀ a ∈ pre, (∃ bs, a = Action.execCmd bs) ∨ (∃ bs, a = Action.sendBytes bs) := by
  have hacts : (handle_request v evs).acts = (workerLoopV v evs).acts ++ teardownActions := rfl
  refine ⟨?_, ?_, ?_, ?_, ?_,
    (workerLoopV v evs).acts, hacts, workerLoop_acts_shape v evs⟩ <;>
    rw [hacts, List.count_append, workerLoop_count_zero v evs _ (by intro bs; exact ⟨by simp, by simp⟩)] <;>
    decide

/-- C8: in the interactive loop, an iteration whose `getline` result is
the literal `exit` breaks out before the `write` call (client.cpp:147-149):
from that input on, no bytes are sent on the socket, nothing further is
printed, and the process ends with exit status 0. -/
theorem c8_exit_line_sends_nothing (evs : List ReadEvent)
    (rest : List (List Byte × List ReadEvent)) :
    runInteractive ((exitBytes, evs) :: rest) =
      { sent := [], printed := [], exitCode := 0 } := by
  simp [runInteractive]

/-- C9: for every executed request, the bytes handed to `send` are the
captured output followed by exactly one sentinel byte (server.cpp:321
sends `result.size()+1` bytes of `result.c_str()`); the captured output
never contains the sentinel, so the response contains exactly one NUL and
it is the final byte; a command with no output yields the one-byte
response `[0]`; and the client's last-chunk test fires on such a
response delivered as a single chunk. -/
theorem c9_response_is_output_then_sentinel (v : Bool) (received : List Byte)
    (fchunks : List (List Byte)) (rest : List SessEvent) :
    (workerLoopV v (SessEvent.request received
        (ExecOutcome.output fchunks true) :: rest)).acts =
      Action.execCmd (cstr received) ::
        Action.sendBytes (capturedOutput fchunks ++ [0]) ::
          (workerLoopV v rest).acts ∧
    (workerResponse fchunks).count 0 = 1 ∧
    (workerResponse fchunks).getLast? = some 0 ∧
    workerResponse ([] : List (List Byte)) = [0] ∧
    (clientRecvLoop [ReadEvent.chunk (workerResponse fchunks)]).outcome =
      RecvOutcome.complete := by
  refine ⟨rfl, ?_, getLast?_append_single _ 0, rfl, ?_⟩
  · rw [workerResponse, List.count_append,
      List.count_eq_zero.mpr (zero_not_mem_capturedOutput fchunks)]
    decide
  · have h : (workerResponse fchunks).getLast? = some 0 :=
      getLast?_append_single (capturedOutput fchunks) 0
    rw [clientRecvLoop, if_pos h]

/-- C10: the externally observable behavior is identical for any two
settings of the verbose flag: the admission loop reaches the same state
(same counter updates and same shutdown decision) and the worker emits
the same executions and socket sends with the same error/exit flags —
`verboseprint` only gates printing, and the counter increment is its
argument, evaluated regardless (server.cpp:208, vprint.h:8). -/
theorem c10_verbose_flag_unobservable (v₁ v₂ : Bool)
    (loopEvs : List LoopEvent) (sessEvs : List SessEvent) :
    (serverRunV v₁ loopEvs).1 = (serverRunV v₂ loopEvs).1 ∧
    (workerLoopV v₁ sessEvs).acts = (workerLoopV v₂ sessEvs).acts ∧
    (workerLoopV v₁ sessEvs).errPath = (workerLoopV v₂ sessEvs).errPath ∧
    (workerLoopV v₁ sessEvs).exited = (workerLoopV v₂ sessEvs).exited ∧
    (handle_request v₁ sessEvs).acts = (handle_request v₂ sessEvs).acts := by
  obtain ⟨h1, h2, h3⟩ := workerLoopV_verbose_indep v₁ v₂ sessEvs
  refine ⟨serverRunFromV_state_verbose_indep v₁ v₂ loopEvs initServerState [] [],
    h1, h2, h3, ?_⟩
  simp [handle_request, h1]

/-- C4 (counterexample): the payload `ab\0` delivered as the two chunks
`a`, `b\0` is a partition preserving total bytes and the trailing
sentinel, yet the client's user-visible output differs from single-chunk
delivery: the per-chunk echo (client.cpp:171) inserts a newline after
every chunk, so the split delivery prints `a\nb\n` while the single
chunk prints `ab\n`. -/
theorem c4_split_delivery_prints_differently :
    ([[97], [98, 0]] : List (List Byte)).flatten = [[97, 98, 0]].flatten ∧
    (clientRecvLoop ([[97], [98, 0]].map ReadEvent.chunk)).bytesread =
      (clientRecvLoop ([[97, 98, 0]].map ReadEvent.chunk)).bytesread ∧
    (clientRecvLoop ([[97], [98, 0]].map ReadEvent.chunk)).printed ≠
      (clientRecvLoop ([[97, 98, 0]].map ReadEvent.chunk)).printed := by
  decide

/-- C4 (amended): for every sentinel-free body and every partition of
`body ++ [0]` into non-empty chunks, the receive loop consumes exactly
the partition, detects the last chunk (outcome `complete`), and
accumulates the same total byte count `body.length + 1` as single-chunk
delivery; the printed output, however, is each chunk's C-string content
followed by one newline, which coincides with single-chunk delivery only
for the trivial partition. -/
theorem c4_reassembly_invariant : ∀ (chunks : List (List Byte)) (body : List Byte),
    (∀ b ∈ body, b ≠ 0) → (∀ c ∈ chunks, c ≠ []) →
    chunks.flatten = body ++ [0] →
    clientRecvLoop (chunks.map ReadEvent.chunk) =
      ⟨(chunks.map clientEcho).flatten, body.length + 1, RecvOutcome.complete⟩ := by
  intro chunks
  induction chunks with
  | nil =>
    intro body hnz hne hjoin
    exact absurd hjoin (by simp)
  | cons c cs ih =>
    intro body hnz hne hjoin
    rcases cs with _ | ⟨c₂, cs₂⟩
    · -- single chunk: c is the whole payload body ++ [0]
      have hc : c = body ++ [0] := by simpa using hjoin
      subst hc
      simp [clientRecvLoop, getLast?_append_single]
    · -- at least two chunks: the head chunk is a proper prefix of the body
      have hc2ne : c₂ ≠ [] := hne c₂ (by simp)
      have hXne : ((c₂ :: cs₂).flatten : List Byte) ≠ [] := by
        simp only [List.flatten_cons]
        intro h
        exact hc2ne (List.append_eq_nil.mp h).1
      have hdl : ((c₂ :: cs₂).flatten).dropLast ++
          [((c₂ :: cs₂).flatten).getLast hXne] = (c₂ :: cs₂).flatten :=
        List.dropLast_append_getLast hXne
      have hjoin' : (c ++ ((c₂ :: cs₂).flatten).dropLast) ++
          [((c₂ :: cs₂).flatten).getLast hXne] = body ++ [0] := by
        rw [List.append_assoc, hdl]
        simpa [List.flatten_cons] using hjoin
      obtain ⟨hbody, hlast⟩ := List.append_inj' hjoin' (by simp)
      have hlast0 : ((c₂ :: cs₂).flatten).getLast hXne = 0 := by
        simpa using hlast
      have hcne : c ≠ [] := hne c (by simp)
      have hmem : c.getLast hcne ∈ body := by
        rw [← hbody]
        exact List.mem_append_left _ (List.getLast_mem hcne)
      have hcnot : ¬ c.getLast? = some 0 := by
        rw [List.getLast?_eq_getLast c hcne]
        intro h
        exact hnz _ hmem (by simpa using h)
      have hjcs : (c₂ :: cs₂).flatten = ((c₂ :: cs₂).flatten).dropLast ++ [0] := by
        conv_lhs => rw [← hdl]
        rw [hlast0]
      have ihh := ih (((c₂ :: cs₂).flatten).dropLast)
        (fun b hb => hnz b (by rw [← hbody]; exact List.mem_append_right _ hb))
        (fun d hd => hne d (List.mem_cons_of_mem _ hd))
        hjcs
      have hlen : body.length = c.length + (((c₂ :: cs₂).flatten).dropLast).length := by
        rw [← hbody, List.length_append]
      simp only [List.map_cons] at ihh ⊢
      rw [clientRecvLoop, if_neg hcnot, ihh]
      simp only [RecvRun.mk.injEq]
      exact ⟨by simp [List.flatten_cons], by omega, trivial⟩

/-- C4 (witness): the amended reassembly statement instantiated at the
payload `ab\0` split into the chunks `a` and `b\0`. -/
theorem c4_reassembly_invariant_witness :
    clientRecvLoop ([[97], [98, 0]].map ReadEvent.chunk) =
      { printed := [97, 10, 98, 10], bytesread := 3, outcome := RecvOutcome.complete } :=
  (c4_reassembly_invariant [[97], [98, 0]] [97, 98]
    (by decide) (by decide) (by decide)).trans (by decide)

/-- C5 (counterexample): the string `http` is not a decimal
representation of a port, yet the `-p` validation accepts it:
`strtoul("http", NULL, 10)` converts no digits, returns 0 and leaves
errno untouched, so server.cpp:84 does not reject it and the server
proceeds to name resolution and bind with service `http` instead of
exiting non-zero without binding. -/
theorem c5_nonnumeric_string_accepted :
    serverPortOption "http" = some "http" ∧
    (∃ c ∈ "http".data, isDigit10 c = false) := by
  decide

/-- C5 (amended): every non-empty all-digit string whose decimal value
is at most 65535 passes the `-p` validation unchanged, and the server
proceeds to resolve and bind that port; rejection (exit non-zero before
any socket work) happens only when `strtoul` reports ERANGE or a value
above 65535, so strings that are not decimal representations (such as
service names) can also be accepted rather than rejected. -/
theorem c5_decimal_port_accepted (s : String) (h1 : s.data ≠ [])
    (h2 : ∀ c ∈ s.data, isDigit10 c = true) (h3 : decValue s.data ≤ 65535) :
    serverPortOption s = some s := by
  obtain ⟨d, rest, hd⟩ : ∃ d rest, s.data = d :: rest := by
    cases hsd : s.data with
    | nil => exact absurd hsd h1
    | cons d rest => exact ⟨d, rest, rfl⟩
  have hdd : isDigit10 d = true := h2 d (by rw [hd]; exact List.mem_cons_self d rest)
  have hdigit : 48 ≤ d.toNat ∧ d.toNat ≤ 57 := by
    simpa [isDigit10] using hdd
  have hspace : cIsSpace d = false := by
    simp only [cIsSpace, Bool.or_eq_false_iff, beq_eq_false_iff_ne, ne_eq]
    omega
  have hdrop : s.data.dropWhile cIsSpace = d :: rest := by
    rw [hd, List.dropWhile_cons, hspace]
    simp
  have hsign : (d.toNat == 43 || d.toNat == 45) = false := by
    simp only [Bool.or_eq_false_iff, beq_eq_false_iff_ne, ne_eq]
    omega
  have hneg : (d.toNat == 45) = false := by
    simp only [beq_eq_false_iff_ne, ne_eq]
    omega
  have h43 : (d.toNat == 43) = false := by
    simp only [beq_eq_false_iff_ne, ne_eq]
    omega
  have htake : (d :: rest).takeWhile isDigit10 = d :: rest :=
    List.takeWhile_eq_self_iff.mpr (by rw [← hd]; exact h2)
  have hoverflow : ¬ decValue (d :: rest) > 2 ^ 64 - 1 := by
    rw [← hd]
    exact Nat.not_lt.mpr (le_trans h3 (by norm_num))
  have hstr : strtoul10 s = (decValue s.data, false) := by
    rw [strtoul10, hdrop]
    simp only [strtoul10core, hsign, hneg, h43, Bool.or_false, Bool.false_eq_true,
      if_false, htake, List.isEmpty_cons]
    rw [if_neg hoverflow, hd]
  have hport : ¬ decValue s.data > 0xffff := Nat.not_lt.mpr h3
  simp only [serverPortOption, hstr]
  rw [if_neg]
  intro h
  rcases h with h | h
  · exact Bool.false_ne_true h
  · exact hport h

/-- C5 (witness): the amended statement instantiated at the decimal
port string `8080`. -/
theorem c5_decimal_port_accepted_witness :
    serverPortOption "8080" = some "8080" :=
  c5_decimal_port_accepted "8080" (by decide) (by decide) (by decide)

/-- C6 (witness): the clean half-close exit instantiated at two
timeouts followed by the close observation. -/
theorem c6_half_close_clean_exit_witness :
    workerLoopV false (List.replicate 2 SessEvent.timeout ++ [SessEvent.recvClosed]) =
      ⟨[], [], false, true⟩ ∧
    workerLoopV false (List.replicate 2 SessEvent.timeout ++ [SessEvent.hup]) =
      ⟨[], [], false, true⟩ ∧
    (handle_request false
        (List.replicate 2 SessEvent.timeout ++ [SessEvent.recvClosed])).acts =
      teardownActions :=
  c6_half_close_clean_exit false 2

/-- C7 (witness): teardown uniqueness instantiated at a poll-error exit. -/
theorem c7_teardown_exactly_once_witness :
    (handle_request false [SessEvent.pollErr]).acts.count Action.freeHost = 1 ∧
    (handle_request false [SessEvent.pollErr]).acts.count Action.freeService = 1 ∧
    (handle_request false [SessEvent.pollErr]).acts.count Action.shutdownSock = 1 ∧
    (handle_request false [SessEvent.pollErr]).acts.count Action.closeSock = 1 ∧
    (handle_request false [SessEvent.pollErr]).acts.count Action.notifyParent = 1 ∧
    ∃ pre, (handle_request false [SessEvent.pollErr]).acts = pre ++ teardownActions ∧
      ∀ a ∈ pre, (∃ bs, a = Action.execCmd bs) ∨ (∃ bs, a = Action.sendBytes bs) :=
  c7_teardown_exactly_once false [SessEvent.pollErr]

/-- C8 (witness): the interactive loop headed by the literal `exit`. -/
theorem c8_exit_line_sends_nothing_witness :
    runInteractive ((exitBytes, ([] : List ReadEvent)) :: []) =
      { sent := [], printed := [], exitCode := 0 } :=
  c8_exit_line_sends_nothing [] []

/-- C9 (witness): the response shape instantiated at a command with no
output (`fgets` produced no chunks). -/
theorem c9_response_is_output_then_sentinel_witness :
    (workerLoopV false (SessEvent.request (strBytes "true")
        (ExecOutcome.output [] true) :: [])).acts =
      Action.execCmd (cstr (strBytes "true")) ::
        Action.sendBytes (capturedOutput [] ++ [0]) ::
          (workerLoopV false []).acts ∧
    (workerResponse []).count 0 = 1 ∧
    (workerResponse []).getLast? = some 0 ∧
    workerResponse ([] : List (List Byte)) = [0] ∧
    (clientRecvLoop [ReadEvent.chunk (workerResponse [])]).outcome =
      RecvOutcome.complete :=
  c9_response_is_output_then_sentinel false (strBytes "true") [] []

/-- C10 (witness): verbose-independence instantiated at one accepted
connection and one worker hang-up. -/
theorem c10_verbose_flag_unobservable_witness :
    (serverRunV true [LoopEvent.readyConn]).1 = (serverRunV false [LoopEvent.readyConn]).1 ∧
    (workerLoopV true [SessEvent.hup]).acts = (workerLoopV false [SessEvent.hup]).acts ∧
    (workerLoopV true [SessEvent.hup]).errPath = (workerLoopV false [SessEvent.hup]).errPath ∧
    (workerLoopV true [SessEvent.hup]).exited = (workerLoopV false [SessEvent.hup]).exited ∧
    (handle_request true [SessEvent.hup]).acts = (handle_request false [SessEvent.hup]).acts :=
  c10_verbose_flag_unobservable true false [LoopEvent.readyConn] [SessEvent.hup]

end Remsh
